import Mathlib

/-!
Verification of the Lox-family tree-walking interpreter
(`codecrafters-interpreter-rust`): a shallow embedding of the lexer
(`src/lexer.rs`) and the evaluator (`src/eval.rs`, with the AST of
`src/expr.rs` and `src/stmt.rs`), together with theorems settling the
claims about logical operators, closures, `return`, assignment,
truthiness, lexer termination, call memoization, equality, and binary
evaluation order.

Modelling conventions, stated once:
* Lox numbers are `f64` in the source; they are modelled as `Int`.
  Every concrete program used below computes only with small integers,
  on which `f64` arithmetic is exact; no theorem below depends on
  fractional, rounding or NaN behaviour.
* `anyhow::Error` values are only ever created from and observed as
  strings in the source, so the error channel is the message `String`.
  The internal `EvalError::Return("return")` signal displays as the
  string `"return"`, which is how `visit_call` observes it.
* `Rc<RefCell<Vec<HashMap<String, Value>>>>` closure cells are modelled
  as indices into a store of environment stacks held in the interpreter
  state; `HashMap` is modelled as an association list (the source only
  uses keyed lookup and insertion, never iteration order).
* Rust `panic!`/`unwrap`/`unreachable!` (which abort the process and are
  never caught by the interpreter) and fuel exhaustion are both modelled
  by the `stuck` outcome; the two are never distinguished by a claim.
* `usize` cursor arithmetic in the lexer wraps modulo `2 ^ 64`, as in a
  release build.
-/

/-- Token tags, from `TokenValue` in `src/token.rs` (keywords prefixed
with `kw` because several are Lean keywords). The `f64` payload of
number tokens is modelled as `Int`. -/
inductive TokenValue where
  | leftParen | rightParen | leftBrace | rightBrace | colon | comma | dot
  | minus | plus | question | semicolon | slash | star
  | bang | bangEqual | equal | equalEqual
  | greater | greaterEqual | less | lessEqual
  | identifier
  | str (s : String)
  | num (n : Int)
  | kwAnd | kwBreak | kwClass | kwElse | kwFalse | kwFun | kwFor | kwIf
  | kwNil | kwOr | kwPrint | kwReturn | kwSuper | kwThis | kwTrue
  | kwVar | kwWhile
  | eof
deriving DecidableEq, Repr

/-- A token: tag, exact matched lexeme, and source line, from `Token` in
`src/token.rs` as used by `src/lexer.rs` and `src/eval.rs`. -/
structure Token where
  value : TokenValue
  lexeme : String
  line : Nat
deriving DecidableEq, Repr

/-- Expression literals, from `Literal` in `src/expr.rs`. -/
inductive Literal where
  | str (s : String)
  | num (n : Int)
  | tru
  | fls
  | nil
deriving DecidableEq, Repr

/-- Expressions, from `Expr` in `src/expr.rs`. `var` is the source's
`Variable` node. -/
inductive Expr where
  | literal (l : Literal)
  | grouping (e : Expr)
  | unary (operator : Token) (right : Expr)
  | binary (left : Expr) (operator : Token) (right : Expr)
  | assign (name : Token) (value : Expr)
  | var (name : Token)
  | call (callee : Expr) (args : List Expr) (paren : Token)

/-- Statements, from `Stmt` in `src/stmt.rs`. `initVal` is the source's
`initializer` field; `initStmt` its `init`; `ret` its `Return`. -/
inductive Stmt where
  | print (e : Expr)
  | expression (e : Expr)
  | varDecl (name : Token) (initVal : Option Expr)
  | block (statements : List Stmt)
  | ifS (condition : Expr) (thenBranch : Stmt) (elseBranch : Option Stmt)
  | whileS (condition : Expr) (body : Stmt)
  | forS (initStmt : Option Stmt) (condition : Expr) (update : Option Expr)
      (body : Stmt)
  | func (name : Token) (params : List Token) (body : List Stmt)
  | ret (value : Option Expr)

/-- Runtime values, from `Value` in `src/eval.rs`. The fields of the
source's `LoxFunction` struct (name, params, body, closure) are inlined
into the `function` constructor; `closure` is the index of the shared
`Rc<RefCell<...>>` cell in the interpreter's store. -/
inductive Value where
  | nil
  | boolean (b : Bool)
  | number (n : Int)
  | string (s : String)
  | function (name : Token) (params : List Token) (body : List Stmt)
      (closure : Nat)
  | rustFunction (s : String)

/-- One scope frame: the `HashMap<String, Value>` as an association
list. -/
abbrev Frame := List (String × Value)

/-- `HashMap::get`. -/
def hmGet : Frame → String → Option Value
  | [], _ => none
  | (k', v) :: rest, k => if k' = k then some v else hmGet rest k

/-- `HashMap::insert` (and `entry(..).and_modify(..).or_insert(..)`):
bind the key, overwriting an existing binding. -/
def hmInsert : Frame → String → Value → Frame
  | [], k, v => [(k, v)]
  | (k', v') :: rest, k, v =>
      if k' = k then (k, v) :: rest else (k', v') :: hmInsert rest k v

/-- `entry(..).or_insert(..)`: bind the key only when it is absent. -/
def hmOrInsert (f : Frame) (k : String) (v : Value) : Frame :=
  if (hmGet f k).isSome then f else f ++ [(k, v)]

/-- The interpreter state: `Interpreter` from `src/eval.rs` plus the
store of closure cells and the lines printed so far. `env` holds the
scope stack with the innermost frame at the head (the source's
`Vec` holds it last and scans with `iter().rev()`); `rets` is the
call-result cache; `store` holds the contents of every closure
`Rc<RefCell<Vec<HashMap<..>>>>` cell; `now` abstracts the wall clock
read by the native `clock`. -/
structure State where
  env : List Frame
  rets : List (String × Value)
  store : List (List Frame)
  output : List String
  now : Int

/-- Outcome of evaluating an expression or executing a statement:
`Ok`/`Err` from the source's `Result<_, Error>` (each carrying the
mutated interpreter state), or `stuck` for a Rust panic or for fuel
exhaustion of the embedding. -/
inductive Res (α : Type) where
  | ok (v : α) (s : State)
  | err (msg : String) (s : State)
  | stuck

/-- `Display for Value` (`src/eval.rs` lines 37-48), used by `print` and
by the memoization key. -/
def display : Value → String
  | .nil => "nil"
  | .boolean b => if b then "true" else "false"
  | .number n => toString n
  | .string s => s
  | .function name _ _ _ => "<fn " ++ name.lexeme ++ ">"
  | .rustFunction s => "fn " ++ s ++ ">"

/-- Result of applying an operator to already-evaluated operands. -/
inductive BinRes where
  | ok (v : Value)
  | err (msg : String)

/-- The operator dispatch of `visit_unary` (`src/eval.rs` lines
103-123) on the evaluated operand; `none` is the `unreachable!()`
arm. -/
def applyUnary (op : TokenValue) (line : Nat) (right : Value) :
    Option BinRes :=
  match op with
  | .minus =>
      match right with
      | .number n => some (.ok (.number (-n)))
      | _ => some (.err ("Operand must be a number.\n[line " ++
          toString line ++ "]"))
  | .bang =>
      match right with
      | .boolean b => some (.ok (.boolean (!b)))
      | .nil => some (.ok (.boolean true))
      | _ => some (.ok (.boolean false))
  | _ => none

/-- The operator dispatch of `visit_binary` (`src/eval.rs` lines
128-239) on the two evaluated operands; the nested matches keep the
source's arm order, and `none` is the `unreachable!()` arm. -/
def applyBinary (op : TokenValue) (line : Nat) (left right : Value) :
    Option BinRes :=
  match op with
  | .plus =>
      match left, right with
      | .number l, .number r => some (.ok (.number (l + r)))
      | .string l, .string r => some (.ok (.string (l ++ r)))
      | _, _ => some (.err
          ("Operands must be two numbers or two strings.\n[line " ++
            toString line ++ "]"))
  | .minus =>
      match left, right with
      | .number l, .number r => some (.ok (.number (l - r)))
      | _, _ => some (.err ("Operands must be numbers.\n[line " ++
          toString line ++ "]"))
  | .star =>
      match left, right with
      | .number l, .number r => some (.ok (.number (l * r)))
      | _, _ => some (.err ("Operands must be numbers.\n[line " ++
          toString line ++ "]"))
  | .slash =>
      match left, right with
      | .number l, .number r => some (.ok (.number (l / r)))
      | _, _ => some (.err ("Operands must be numbers.\n[line " ++
          toString line ++ "]"))
  | .greater =>
      match left, right with
      | .number l, .number r => some (.ok (.boolean (decide (l > r))))
      | _, _ => some (.err ("Operands must be numbers.\n[line " ++
          toString line ++ "]"))
  | .greaterEqual =>
      match left, right with
      | .number l, .number r => some (.ok (.boolean (decide (l ≥ r))))
      | _, _ => some (.err ("Operands must be numbers.\n[line " ++
          toString line ++ "]"))
  | .less =>
      match left, right with
      | .number l, .number r => some (.ok (.boolean (decide (l < r))))
      | _, _ => some (.err ("Operands must be numbers.\n[line " ++
          toString line ++ "]"))
  | .lessEqual =>
      match left, right with
      | .number l, .number r => some (.ok (.boolean (decide (l ≤ r))))
      | _, _ => some (.err ("Operands must be numbers.\n[line " ++
          toString line ++ "]"))
  | .equalEqual =>
      match left, right with
      | .number l, .number r => some (.ok (.boolean (decide (l = r))))
      | .string l, .string r => some (.ok (.boolean (decide (l = r))))
      | .boolean l, .boolean r => some (.ok (.boolean (decide (l = r))))
      | .nil, .nil => some (.ok (.boolean true))
      | _, _ => some (.ok (.boolean false))
  | .bangEqual =>
      match left, right with
      | .number l, .number r => some (.ok (.boolean (!decide (l = r))))
      | .string l, .string r => some (.ok (.boolean (!decide (l = r))))
      | .boolean l, .boolean r => some (.ok (.boolean (!decide (l = r))))
      | .nil, .nil => some (.ok (.boolean false))
      | _, _ => some (.ok (.boolean true))
  | .kwOr =>
      match left, right with
      | .boolean l, .boolean r => some (.ok (.boolean (l || r)))
      | .boolean _, v => some (.ok v)
      | v, .boolean _ => some (.ok v)
      | _, _ => some (.ok (.boolean true))
  | .kwAnd =>
      match left, right with
      | .boolean l, .boolean r => some (.ok (.boolean (l && r)))
      | .boolean false, _ => some (.ok (.boolean false))
      | .boolean true, v => some (.ok v)
      | _, .boolean r => some (.ok (.boolean r))
      | .nil, _ => some (.ok (.boolean false))
      | _, .nil => some (.ok (.boolean false))
      | _, r => some (.ok r)
  | _ => none

/-- `visit_assign`'s frame scan (`src/eval.rs` lines 244-252): write to
the innermost frame already binding the name; do nothing when no frame
binds it. -/
def assignFirst : List Frame → String → Value → List Frame
  | [], _, _ => []
  | f :: rest, k, v =>
      if (hmGet f k).isSome then hmInsert f k v :: rest
      else f :: assignFirst rest k v

/-- `visit_variable`'s frame scan (`src/eval.rs` lines 256-261):
innermost binding wins. -/
def lookupVar : List Frame → String → Option Value
  | [], _ => none
  | f :: rest, k =>
      match hmGet f k with
      | some v => some v
      | none => lookupVar rest k

example : hmInsert [("a", .number 1), ("b", .nil)] "a" (.number 2) =
    [("a", .number 2), ("b", .nil)] := rfl
example : hmOrInsert [("a", .number 1)] "a" (.number 2) =
    [("a", .number 1)] := rfl
example : lookupVar [[("a", .number 1)], [("a", .number 2)]] "a" =
    some (.number 1) := rfl

/-- The error message of a failed call target (`src/eval.rs` lines
344-347). -/
def notCallableMsg (line : Nat) : String :=
  "Can only call functions and classes.\n[line " ++ toString line ++ "]"

/-- The arity-mismatch message (`src/eval.rs` lines 279-284). -/
def arityMsg (nparams nargs line : Nat) : String :=
  "Expected " ++ toString nparams ++ " arguments but got " ++
    toString nargs ++ ".\n[line " ++ toString line ++ "]"

/-- The undefined-variable message (`src/eval.rs` lines 262-265). -/
def undefinedMsg (name : String) (line : Nat) : String :=
  "Undefined variable '" ++ name ++ "'.\n[line " ++ toString line ++ "]"

/-- The memoization key of a call (`src/eval.rs` lines 297-302): the
function name and the comma-joined display forms of the arguments. -/
def funcKey (name : String) (args : List Value) : String :=
  name ++ "(" ++ String.intercalate ", " (args.map display) ++ ")"

mutual

/-- Expression evaluation: the `ExprVisitor` implementation of
`Interpreter` (`src/eval.rs` lines 88-349), with fuel. Mutations of
`self` become the threaded `State`. -/
def evalExpr : Nat → Expr → State → Res Value
  | 0, _, _ => .stuck
  | fuel + 1, e, s =>
    match e with
    | .literal l =>
      match l with
      | .str v => .ok (.string v) s
      | .num n => .ok (.number n) s
      | .tru => .ok (.boolean true) s
      | .fls => .ok (.boolean false) s
      | .nil => .ok .nil s
    | .grouping inner => evalExpr fuel inner s
    | .unary op right =>
      match evalExpr fuel right s with
      | .ok rv s1 =>
        match applyUnary op.value op.line rv with
        | some (.ok v) => .ok v s1
        | some (.err m) => .err m s1
        | none => .stuck
      | .err m s1 => .err m s1
      | .stuck => .stuck
    | .binary l op r =>
      match evalExpr fuel r s with
      | .err m s1 => .err m s1
      | .stuck => .stuck
      | .ok rv s1 =>
        match evalExpr fuel l s1 with
        | .err m s2 => .err m s2
        | .stuck => .stuck
        | .ok lv s2 =>
          match applyBinary op.value op.line lv rv with
          | some (.ok v) => .ok v s2
          | some (.err m) => .err m s2
          | none => .stuck
    | .assign name value =>
      match evalExpr fuel value s with
      | .err m s1 => .err m s1
      | .stuck => .stuck
      | .ok nv s1 => .ok nv { s1 with env := assignFirst s1.env name.lexeme nv }
    | .var name =>
      match lookupVar s.env name.lexeme with
      | some v => .ok v s
      | none => .err (undefinedMsg name.lexeme name.line) s
    | .call callee args paren =>
      match evalExpr fuel callee s with
      | .err m s1 => .err m s1
      | .stuck => .stuck
      | .ok cv s1 =>
        match cv with
        | .function name params body closure =>
          if params.length ≠ args.length then
            .err (arityMsg params.length args.length paren.line) s1
          else
            match evalArgs fuel args params [] [] s1 with
            | none => .stuck
            | some (argVals, newEnv, s2) =>
              let key := funcKey name.lexeme argVals
              match hmGet s2.rets key with
              | some retv => .ok retv s2
              | none =>
                let oldEnv := s2.env
                match s2.store.get? closure with
                | none => .stuck
                | some closEnv =>
                  match runBody fuel body "return" { s2 with env := newEnv :: closEnv } with
                  | none => .stuck
                  | some (retName, s4) =>
                    match s4.env with
                    | [] => .stuck
                    | top :: rest =>
                      let retv := (hmGet top retName).getD .nil
                      let rets' :=
                        match retv with
                        | .number _ => hmInsert s4.rets key retv
                        | _ => s4.rets
                      .ok retv { s4 with
                                   env := oldEnv, rets := rets',
                                   store := s4.store.set closure rest }
        | .rustFunction nm =>
          if nm = "clock" then .ok (.number s1.now) s1
          else .err (notCallableMsg paren.line) s1
        | _ => .err (notCallableMsg paren.line) s1
termination_by structural fuel => fuel

/-- Argument evaluation of `visit_call` (`src/eval.rs` lines 286-295):
`zip(params)` pairs arguments with parameters and stops at the shorter
list, each argument value is pushed in order and inserted into the fresh
call frame, and an argument evaluation error panics (`unwrap`). -/
def evalArgs : Nat → List Expr → List Token → List Value → Frame →
    State → Option (List Value × Frame × State)
  | 0, _, _, _, _, _ => none
  | _ + 1, [], _, vals, frame, s => some (vals, frame, s)
  | _ + 1, _ :: _, [], vals, frame, s => some (vals, frame, s)
  | fuel + 1, a :: as, p :: ps, vals, frame, s =>
    match evalExpr fuel a s with
    | .ok v s1 =>
        evalArgs fuel as ps (vals ++ [v]) (hmInsert frame p.lexeme v) s1
    | .err _ _ => none
    | .stuck => none
termination_by structural fuel => fuel

/-- The body loop of `visit_call` (`src/eval.rs` lines 312-318): every
statement is run, an `Err` does not stop the loop, and `ret` holds
`"return"` or the display of the last error. -/
def runBody : Nat → List Stmt → String → State → Option (String × State)
  | 0, _, _, _ => none
  | _ + 1, [], acc, s => some (acc, s)
  | fuel + 1, st :: rest, acc, s =>
    match execStmt fuel st s with
    | .ok _ s1 => runBody fuel rest acc s1
    | .err e s1 => runBody fuel rest e s1
    | .stuck => none
termination_by structural fuel => fuel

/-- Statement execution: the `StmtVisitor` implementation of
`Interpreter` (`src/eval.rs` lines 352-471), with fuel. -/
def execStmt : Nat → Stmt → State → Res Unit
  | 0, _, _ => .stuck
  | fuel + 1, st, s =>
    match st with
    | .print e =>
      match evalExpr fuel e s with
      | .ok v s1 => .ok () { s1 with output := s1.output ++ [display v] }
      | .err m s1 => .err m s1
      | .stuck => .stuck
    | .expression e =>
      match evalExpr fuel e s with
      | .ok _ s1 => .ok () s1
      | .err m s1 => .err m s1
      | .stuck => .stuck
    | .varDecl name initVal =>
      match initVal with
      | some e =>
        match evalExpr fuel e s with
        | .ok v s1 =>
          match s1.env with
          | [] => .stuck
          | top :: rest => .ok () { s1 with env := hmInsert top name.lexeme v :: rest }
        | .err m s1 => .err m s1
        | .stuck => .stuck
      | none =>
        match s.env with
        | [] => .stuck
        | top :: rest => .ok () { s with env := hmOrInsert top name.lexeme .nil :: rest }
    | .block stmts =>
      match execStmts fuel stmts { s with env := [] :: s.env } with
      | .stuck => .stuck
      | .ok _ s2 | .err _ s2 =>
        match s2.env with
        | [] => .stuck
        | top :: rest =>
          match hmGet top "return" with
          | some rv =>
            match rest with
            | [] => .stuck
            | top2 :: rest2 =>
              .ok () { s2 with env := hmInsert top2 "return" rv :: rest2 }
          | none => .ok () { s2 with env := rest }
    | .ifS cond thenBranch elseBranch =>
      match evalExpr fuel cond s with
      | .err m s1 => .err m s1
      | .stuck => .stuck
      | .ok c s1 =>
        match c with
        | .boolean false =>
          match elseBranch with
          | some eb => execStmt fuel eb s1
          | none => .ok () s1
        | _ => execStmt fuel thenBranch s1
    | .whileS cond body =>
      match evalExpr fuel cond s with
      | .err m s1 => .err m s1
      | .stuck => .stuck
      | .ok c s1 =>
        match c with
        | .boolean false => .ok () s1
        | _ =>
          match execStmt fuel body s1 with
          | .ok _ s2 => execStmt fuel (.whileS cond body) s2
          | .err m s2 => .err m s2
          | .stuck => .stuck
    | .forS initStmt cond update body =>
      match (match initStmt with
             | some i => execStmt fuel i s
             | none => .ok () s) with
      | .err m s1 => .err m s1
      | .stuck => .stuck
      | .ok _ s1 => forLoop fuel cond update body s1
    | .func name params body =>
      match s.env with
      | [] => .stuck
      | top :: rest =>
        let fval := Value.function name params body s.store.length
        .ok () { s with
                   env := hmOrInsert top name.lexeme fval :: rest,
                   store := s.store ++ [hmOrInsert top name.lexeme fval :: rest] }
    | .ret value =>
      match (match value with
             | some e => evalExpr fuel e s
             | none => .ok Value.nil s) with
      | .err m s1 => .err m s1
      | .stuck => .stuck
      | .ok v s1 =>
        match s1.env with
        | [] => .stuck
        | top :: rest => .err "return" { s1 with env := hmOrInsert top "return" v :: rest }
termination_by structural fuel => fuel

/-- The loop of `visit_for` (`src/eval.rs` lines 417-422): no frame is
pushed; condition, body and optional update run in the enclosing
scope. -/
def forLoop : Nat → Expr → Option Expr → Stmt → State → Res Unit
  | 0, _, _, _, _ => .stuck
  | fuel + 1, cond, update, body, s =>
    match evalExpr fuel cond s with
    | .err m s1 => .err m s1
    | .stuck => .stuck
    | .ok c s1 =>
      match c with
      | .boolean false => .ok () s1
      | _ =>
        match execStmt fuel body s1 with
        | .err m s2 => .err m s2
        | .stuck => .stuck
        | .ok _ s2 =>
          match (match update with
                 | some u => evalExpr fuel u s2
                 | none => .ok Value.nil s2) with
          | .err m s3 => .err m s3
          | .stuck => .stuck
          | .ok _ s3 => forLoop fuel cond update body s3
termination_by structural fuel => fuel

/-- `Interpreter::execute` (`src/eval.rs` lines 80-85): run statements
in order, stopping at the first `Err`. -/
def execStmts : Nat → List Stmt → State → Res Unit
  | 0, _, _ => .stuck
  | _ + 1, [], s => .ok () s
  | fuel + 1, st :: rest, s =>
    match execStmt fuel st s with
    | .ok _ s1 => execStmts fuel rest s1
    | .err m s1 => .err m s1
    | .stuck => .stuck
termination_by structural fuel => fuel

end

/-- `Interpreter::new` (`src/eval.rs` lines 56-63): one global frame
holding the native `clock`; the wall clock is abstracted as 0. -/
def initState : State :=
  { env := [[("clock", Value.rustFunction "clock")]], rets := [],
    store := [], output := [], now := 0 }

/-- Run a program from a fresh interpreter, as `run` mode does
(`src/main.rs` lines 113-148). -/
def execProgram (fuel : Nat) (prog : List Stmt) : Res Unit :=
  execStmts fuel prog initState

/-- The printed lines of a successful run. -/
def Res.okOutput : Res Unit → Option (List String)
  | .ok _ s => some s.output
  | _ => none

/-- The message of a run that ends in a runtime error. -/
def Res.errMsg : {α : Type} → Res α → Option String
  | _, .err m _ => some m
  | _, _ => none

/-- Truncation of `usize` arithmetic to 64 bits (release-build
wrapping). -/
def wrap64 (n : Nat) : Nat := n % 18446744073709551616

/-- `i -= b` on a `usize` cursor, wrapping at zero. -/
def sub64 (a b : Nat) : Nat := (a + (18446744073709551616 - b)) % 18446744073709551616

/-- The keyword table `KEYWORDS` of `src/token.rs` (lines 69-87), used
by `scan`. -/
def keywordTable : List (String × TokenValue) :=
  [("and", .kwAnd), ("break", .kwBreak), ("class", .kwClass),
   ("else", .kwElse), ("false", .kwFalse), ("for", .kwFor),
   ("fun", .kwFun), ("if", .kwIf), ("nil", .kwNil), ("or", .kwOr),
   ("print", .kwPrint), ("return", .kwReturn), ("super", .kwSuper),
   ("this", .kwThis), ("true", .kwTrue), ("var", .kwVar),
   ("while", .kwWhile)]

/-- Keyword lookup (`keywords.get` in `src/lexer.rs` lines 144-152). -/
def keywordGet : List (String × TokenValue) → String → Option TokenValue
  | [], _ => none
  | (k, v) :: rest, s => if k = s then some v else keywordGet rest s

/-- Whether `lexeme.parse::<f64>()` succeeds on the lexemes the number
branch builds (a non-empty run of digits with at most one dot); the
branch can only reach the parse with such a lexeme, so the modelling of
`f64` parsing matters only on them. -/
def parseF64Ok (s : String) : Bool :=
  s.toList.any Char.isDigit &&
    s.toList.all (fun c => c.isDigit || c = '.') &&
    (s.toList.filter (fun c => c = '.')).length ≤ 1

/-- The numeric payload of a number token: the integer part of the
lexeme (the `f64` value is modelled by its integer part; no claim
depends on this payload). -/
def parseNumValue (s : String) : Int :=
  Int.ofNat ((s.takeWhile Char.isDigit).foldl
    (fun acc c => acc * 10 + (c.toNat - 48)) 0)

/-- The string-literal loop of `scan` (`src/lexer.rs` lines 66-92):
starting just past the opening quote, accumulate until a closing quote
(token emitted, cursor left on the quote), count a newline without
advancing the cursor, or hit end of input (error flag, no token).
Returns (token?, cursor, line, error-flag); `none` is fuel
exhaustion. -/
def stringLoop : Nat → List Char → Nat → Nat → String →
    Option (Option Token × Nat × Nat × Bool)
  | 0, _, _, _, _ => none
  | fuel + 1, chars, i, line, lexeme =>
    match chars.get? i with
    | some c =>
      if c = '"' then
        let lexeme' := lexeme.push '"'
        let chs := lexeme'.toList
        some (some ⟨.str (String.mk ((chs.drop 1).take (chs.length - 2))),
          lexeme', line⟩, i, line, false)
      else if c = '\n' then stringLoop fuel chars i (line + 1) lexeme
      else stringLoop fuel chars (wrap64 (i + 1)) line (lexeme.push c)
    | none => some (none, i, line, true)
termination_by structural fuel => fuel

/-- The number loop of `scan` (`src/lexer.rs` lines 94-113): consume
digits and at most one dot; on another character step the cursor back
one and stop. Returns (cursor, lexeme). -/
def numberLoop : Nat → List Char → Nat → String → Bool →
    Option (Nat × String)
  | 0, _, _, _, _ => none
  | fuel + 1, chars, i, lexeme, hasDigit =>
    match chars.get? i with
    | some c =>
      if c.isDigit then numberLoop fuel chars (wrap64 (i + 1)) (lexeme.push c) hasDigit
      else if c = '.' && !hasDigit then
        numberLoop fuel chars (wrap64 (i + 1)) (lexeme.push c) true
      else some (sub64 i 1, lexeme)
    | none => some (i, lexeme)
termination_by structural fuel => fuel

/-- The identifier loop of `scan` (`src/lexer.rs` lines 130-143). -/
def identLoop : Nat → List Char → Nat → String → Option (Nat × String)
  | 0, _, _, _ => none
  | fuel + 1, chars, i, lexeme =>
    match chars.get? i with
    | some c =>
      if c.isAlpha || c.isDigit || c = '_' then
        identLoop fuel chars (wrap64 (i + 1)) (lexeme.push c)
      else some (sub64 i 1, lexeme)
    | none => some (i, lexeme)
termination_by structural fuel => fuel

/-- The line-comment loop of `scan` (`src/lexer.rs` lines 25-28):
advance while the next character exists and is not a newline. -/
def commentLoop : Nat → List Char → Nat → Option Nat
  | 0, _, _ => none
  | fuel + 1, chars, i =>
    match chars.get? (i + 1) with
    | some c => if c = '\n' then some i else commentLoop fuel chars (wrap64 (i + 1))
    | none => some i
termination_by structural fuel => fuel

/-- One- and two-character operator handling plus dispatch to the
literal loops: the body of `scan`'s `while let` (`src/lexer.rs` lines
12-164). Each iteration appends tokens, updates the cursor, line and
sticky error flag, then advances the cursor by one. -/
def scanLoop : Nat → List Char → Nat → Nat → Bool → List Token →
    Option (List Token × Bool)
  | 0, _, _, _, _, _ => none
  | fuel + 1, chars, i, line, errF, tokens =>
    match chars.get? i with
    | none => some (tokens ++ [⟨.eof, "", line⟩], errF)
    | some c =>
      if c = '(' then
        scanLoop fuel chars (wrap64 (i + 1)) line errF
          (tokens ++ [⟨.leftParen, "(", line⟩])
      else if c = ')' then
        scanLoop fuel chars (wrap64 (i + 1)) line errF
          (tokens ++ [⟨.rightParen, ")", line⟩])
      else if c = '{' then
        scanLoop fuel chars (wrap64 (i + 1)) line errF
          (tokens ++ [⟨.leftBrace, "\x7b", line⟩])
      else if c = '}' then
        scanLoop fuel chars (wrap64 (i + 1)) line errF
          (tokens ++ [⟨.rightBrace, "\x7d", line⟩])
      else if c = ',' then
        scanLoop fuel chars (wrap64 (i + 1)) line errF
          (tokens ++ [⟨.comma, ",", line⟩])
      else if c = '.' then
        scanLoop fuel chars (wrap64 (i + 1)) line errF
          (tokens ++ [⟨.dot, ".", line⟩])
      else if c = '-' then
        scanLoop fuel chars (wrap64 (i + 1)) line errF
          (tokens ++ [⟨.minus, "-", line⟩])
      else if c = '+' then
        scanLoop fuel chars (wrap64 (i + 1)) line errF
          (tokens ++ [⟨.plus, "+", line⟩])
      else if c = ';' then
        scanLoop fuel chars (wrap64 (i + 1)) line errF
          (tokens ++ [⟨.semicolon, ";", line⟩])
      else if c = '*' then
        scanLoop fuel chars (wrap64 (i + 1)) line errF
          (tokens ++ [⟨.star, "*", line⟩])
      else if c = '/' then
        if chars.get? (i + 1) = some '/' then
          match commentLoop fuel chars i with
          | none => none
          | some i' => scanLoop fuel chars (wrap64 (i' + 1)) line errF tokens
        else
          scanLoop fuel chars (wrap64 (i + 1)) line errF
            (tokens ++ [⟨.slash, "/", line⟩])
      else if c = '=' then
        if chars.get? (i + 1) = some '=' then
          scanLoop fuel chars (wrap64 (i + 1 + 1)) line errF
            (tokens ++ [⟨.equalEqual, "==", line⟩])
        else
          scanLoop fuel chars (wrap64 (i + 1)) line errF
            (tokens ++ [⟨.equal, "=", line⟩])
      else if c = '!' then
        if chars.get? (i + 1) = some '=' then
          scanLoop fuel chars (wrap64 (i + 1 + 1)) line errF
            (tokens ++ [⟨.bangEqual, "!=", line⟩])
        else
          scanLoop fuel chars (wrap64 (i + 1)) line errF
            (tokens ++ [⟨.bang, "!", line⟩])
      else if c = '<' then
        if chars.get? (i + 1) = some '=' then
          scanLoop fuel chars (wrap64 (i + 1 + 1)) line errF
            (tokens ++ [⟨.lessEqual, "<=", line⟩])
        else
          scanLoop fuel chars (wrap64 (i + 1)) line errF
            (tokens ++ [⟨.less, "<", line⟩])
      else if c = '>' then
        if chars.get? (i + 1) = some '=' then
          scanLoop fuel chars (wrap64 (i + 1 + 1)) line errF
            (tokens ++ [⟨.greaterEqual, ">=", line⟩])
        else
          scanLoop fuel chars (wrap64 (i + 1)) line errF
            (tokens ++ [⟨.greater, ">", line⟩])
      else if c = '"' then
        match stringLoop fuel chars (wrap64 (i + 1)) line (String.mk ['"']) with
        | none => none
        | some (tok?, i', line', strErr) =>
          scanLoop fuel chars (wrap64 (i' + 1)) line' (errF || strErr)
            (tokens ++ tok?.toList)
      else if c.isDigit then
        match numberLoop fuel chars i "" false with
        | none => none
        | some (i1, lexeme) =>
          let trailingDot := lexeme.toList.getLast? = some '.'
          let i2 := if trailingDot then sub64 i1 2 else i1
          let lexeme2 := if trailingDot then lexeme.dropRight 1 else lexeme
          if parseF64Ok lexeme2 then
            scanLoop fuel chars (wrap64 (i2 + 1)) line errF
              (tokens ++ [⟨.num (parseNumValue lexeme2), lexeme2, line⟩])
          else
            scanLoop fuel chars (wrap64 (i2 + 1)) line true tokens
      else if c.isAlpha || c = '_' then
        match identLoop fuel chars i "" with
        | none => none
        | some (i', lexeme) =>
          match keywordGet keywordTable lexeme with
          | some kv =>
            scanLoop fuel chars (wrap64 (i' + 1)) line errF
              (tokens ++ [⟨kv, lexeme, line⟩])
          | none =>
            scanLoop fuel chars (wrap64 (i' + 1)) line errF
              (tokens ++ [⟨.identifier, lexeme, line⟩])
      else if c = ' ' || c = '\r' || c = '\t' then
        scanLoop fuel chars (wrap64 (i + 1)) line errF tokens
      else if c = '\n' then
        scanLoop fuel chars (wrap64 (i + 1)) (line + 1) errF tokens
      else
        scanLoop fuel chars (wrap64 (i + 1)) line true tokens
termination_by structural fuel => fuel

/-- `scan` (`src/lexer.rs` lines 5-167), with fuel: `none` means the
loop has not finished within `fuel` iterations (for every fuel at a
diverging input). The error exit code 65 is modelled by the Boolean
flag. -/
def scan (fuel : Nat) (source : String) : Option (List Token × Bool) :=
  scanLoop fuel source.toList 0 1 false []

/-! Concrete tokens and programs used by the claims below. -/

/-- The identifier token `x` on line 1. -/
def xTok : Token := ⟨.identifier, "x", 1⟩

/-- The identifier token `a` on line 1. -/
def aTok : Token := ⟨.identifier, "a", 1⟩

/-- The identifier token `c` on line 1. -/
def cTok : Token := ⟨.identifier, "c", 1⟩

/-- The identifier token `f` on line 1. -/
def fTok : Token := ⟨.identifier, "f", 1⟩

/-- The identifier token `g` on line 1. -/
def gTok : Token := ⟨.identifier, "g", 1⟩

/-- The identifier token `q` on line 2. -/
def qTok : Token := ⟨.identifier, "q", 2⟩

/-- The operator token `+` on line 1. -/
def plusTok : Token := ⟨.plus, "+", 1⟩

/-- The operator token `and` on line 1. -/
def andTok : Token := ⟨.kwAnd, "and", 1⟩

/-- A closing-paren token on line 1 (the `paren` field of calls). -/
def parenTok : Token := ⟨.rightParen, ")", 1⟩

/-- The program `var x = 0; false and (x = 1); print x;`. -/
def andProg : List Stmt :=
  [.varDecl xTok (some (.literal (.num 0))),
   .expression (.binary (.literal .fls) andTok
     (.assign xTok (.literal (.num 1)))),
   .print (.var xTok)]

/-- The program `var a = 1; fun f() { print a; } a = 2; f();`. -/
def closureProg : List Stmt :=
  [.varDecl aTok (some (.literal (.num 1))),
   .func fTok [] [.print (.var aTok)],
   .expression (.assign aTok (.literal (.num 2))),
   .expression (.call (.var fTok) [] parenTok)]

/-- The program `fun f() { return 1; print 2; } print f();`. -/
def retProg : List Stmt :=
  [.func fTok [] [.ret (some (.literal (.num 1))),
                  .print (.literal (.num 2))],
   .print (.call (.var fTok) [] parenTok)]

/-- The program `fun f() { q; } print f();` where `q` is never
declared, so the body raises a genuine runtime error. -/
def bodyErrProg : List Stmt :=
  [.func fTok [] [.expression (.var qTok)],
   .print (.call (.var fTok) [] parenTok)]

/-- The program `if (nil) print 1;`. -/
def nilIfProg : List Stmt :=
  [.ifS (.literal .nil) (.print (.literal (.num 1))) none]

/-- C1: the claim says `and`/`or` short-circuit and return the deciding
operand's value uncoerced. The code refutes all three parts:
`nil and 1` evaluates to the coerced `false` instead of the left
operand `nil`; `1 or 2` evaluates to the coerced `true` instead of the
left operand `1`; and in `false and (x = 1)` the right operand IS
evaluated — its assignment fires and the program prints `1`, where the
claim demands `x` stay `0`. -/
theorem and_or_eager_and_coerced :
    applyBinary .kwAnd 1 Value.nil (Value.number 1) =
      some (.ok (.boolean false)) ∧
    applyBinary .kwOr 1 (Value.number 1) (Value.number 2) =
      some (.ok (.boolean true)) ∧
    (execProgram 30 andProg).okOutput = some ["1"] :=
  ⟨rfl, rfl, rfl⟩

/-- C2: the claim says the captured environment shares its frame cells
with the interpreter's active environment, so a later mutation of an
enclosing frame is visible at call time. The code clones the frames
into a fresh cell at declaration (`visit_func`, `self.env.clone()`), so
in `var a = 1; fun f() { print a; } a = 2; f();` the call prints the
snapshot value `1`, where the claim demands `2`. -/
theorem closure_capture_is_deep_snapshot :
    (execProgram 40 closureProg).okOutput = some ["1"] := rfl

/-- C3: the claim says a `return` stops the body immediately, with the
call resulting in the returned value. The result part holds, but the
body loop of `visit_call` ignores the Return signal and keeps
executing: `fun f() { return 1; print 2; } print f();` prints `2`
(the statement after the `return`) and then the call's value `1`. -/
theorem return_does_not_stop_function_body :
    (execProgram 40 retProg).okOutput = some ["2", "1"] := rfl

/-- C4: the claim says the Return signal never escapes a function
boundary and never reads as a runtime error, and that a genuine runtime
error in a body aborts execution. The code refutes both: a top-level
`return;` surfaces as the runtime error `return` (exit 70 in `run`
mode), and a body raising `Undefined variable` is absorbed by the call
loop, which completes normally and returns `Nil`. -/
theorem return_escapes_and_body_error_absorbed :
    (execProgram 20 [Stmt.ret none]).errMsg = some "return" ∧
    (execProgram 40 bodyErrProg).okOutput = some ["nil"] :=
  ⟨rfl, rfl⟩

/-- C5: the claim says assigning to a name bound in no frame fails with
`Undefined variable 'NAME'.`. The code's `visit_assign` silently does
nothing when no frame binds the name: evaluating `x = 1` in the fresh
interpreter state succeeds with value `1` and leaves the state
untouched. -/
theorem assign_to_undeclared_silently_succeeds :
    evalExpr 10 (.assign xTok (.literal (.num 1))) initState =
      .ok (.number 1) initState := rfl

/-- C6: the claim says `nil` is falsy for `if`/`while`/`for`
conditions. The code's condition test is `Value::Boolean(false) !=
cond`, so only `false` is falsy there: `if (nil) print 1;` runs the
then branch and prints `1`, where the claim demands it be skipped.
(The code's `!` operator does treat `nil` as falsy, so the source is
inconsistent with itself.) -/
theorem nil_condition_runs_then_branch :
    (execProgram 20 nilIfProg).okOutput = some ["1"] := rfl

/-- Helper for C7: inside a string literal the scanner counts a newline
without advancing the cursor (`src/lexer.rs` line 80 has no `i += 1`),
so once the cursor rests on a newline the loop never leaves it. -/
theorem stringLoop_newline_no_progress (cs : List Char) (i : Nat)
    (h : cs.get? i = some '\n') :
    ∀ fuel line lex, stringLoop fuel cs i line lex = none := by
  intro fuel
  induction fuel with
  | zero => intro line lex; rfl
  | succ f ih =>
    intro line lex
    rw [stringLoop, h]
    simp only [reduceIte, Char.reduceEq]
    exact ih _ _

/-- C7: the claim says `scan` terminates on every input — in particular
on a string literal with an embedded newline — and ends the token list
with `Eof`. It is refuted on the five-character source `"a⏎b"` (a
quoted string whose second character is a newline): the string loop
never advances past the newline, so for every fuel bound the embedded
`scan` fails to finish, and no token list is ever produced. -/
theorem scan_diverges_on_newline_in_string :
    ∀ fuel, scan fuel "\"a\nb\"" = none := by
  intro fuel
  have hchars : ("\"a\nb\"" : String).toList = ['"', 'a', '\n', 'b', '"'] := rfl
  have hstall : ∀ f line lex,
      stringLoop f ['"', 'a', '\n', 'b', '"'] 2 line lex = none :=
    stringLoop_newline_no_progress _ 2 rfl
  have h1 : ∀ f, stringLoop f ['"', 'a', '\n', 'b', '"'] 1 1 (String.mk ['"']) = none := by
    intro f
    match f with
    | 0 => rfl
    | f' + 1 =>
      rw [stringLoop]
      simp only [List.get?, Char.reduceEq, reduceIte, wrap64]
      exact hstall f' 1 _
  match fuel with
  | 0 => rfl
  | f + 1 =>
    show scanLoop (f + 1) ("\"a\nb\"" : String).toList 0 1 false [] = none
    rw [hchars, scanLoop]
    simp only [List.get?, Char.reduceEq, reduceIte, Char.isDigit, Char.isAlpha,
      Char.isLower, Char.isUpper, wrap64]
    rw [h1 f]

/-- The program `var c = 0; fun g() { c = c + 1; return c; }
print g(); print g();` — a function not named `fib` whose body mutates
its closure, called twice with the same (empty) argument list. -/
def memoProg : List Stmt :=
  [.varDecl cTok (some (.literal (.num 0))),
   .func gTok [] [.expression (.assign cTok
                    (.binary (.var cTok) plusTok (.literal (.num 1)))),
                  .ret (some (.var cTok))],
   .print (.call (.var gTok) [] parenTok),
   .print (.call (.var gTok) [] parenTok)]

/-- C8 counterexample: the claim says only a function named `fib` is
memoized, so `g`'s body must run on both calls, giving `1` then `2`
(each run increments the closure-held counter `c`). The code keys its
cache on the textual call form alone, with no name check, so the second
`g()` is served from the cache: the program prints `1` twice. -/
theorem memoization_hits_function_not_named_fib :
    (execProgram 60 memoProg).okOutput = some ["1", "1"] := rfl

/-- C8 (amended): `visit_call` memoizes every function, not just `fib`:
whenever the callee evaluates to a `Function` of matching arity and the
cache already holds the key built from the function's name and the
displayed arguments, the call returns the cached value at once — the
state stays as it was after argument evaluation, and the body is never
entered, whatever the function's name. -/
theorem cache_hit_skips_body_for_any_name (fuel : Nat) (calleeE : Expr)
    (args : List Expr) (paren : Token) (s s1 s2 : State) (name : Token)
    (params : List Token) (body : List Stmt) (closure : Nat)
    (vals : List Value) (frame : Frame) (v : Value)
    (hc : evalExpr fuel calleeE s = .ok (.function name params body closure) s1)
    (ha : params.length = args.length)
    (hv : evalArgs fuel args params [] [] s1 = some (vals, frame, s2))
    (hk : hmGet s2.rets (funcKey name.lexeme vals) = some v) :
    evalExpr (fuel + 1) (.call calleeE args paren) s = .ok v s2 := by
  rw [evalExpr, hc]
  simp only [ha, ne_eq, not_true_eq_false, if_false, ite_false, reduceIte, hv, hk]

/-- A state whose cache already holds `g()`, with `g` bound to a
zero-argument function that is not named `fib`. -/
def memoState : State :=
  { env := [[("g", .function gTok [] [] 0)]], rets := [("g()", .number 7)],
    store := [[]], output := [], now := 0 }

/-- C8 witness: in `memoState`, calling `g()` returns the cached `7`
without touching the body or the state. -/
theorem cache_hit_skips_body_for_any_name_witness :
    evalExpr 2 (.call (.var gTok) [] parenTok) memoState =
      .ok (.number 7) memoState :=
  cache_hit_skips_body_for_any_name 1 (.var gTok) [] parenTok
    memoState memoState memoState gTok [] [] 0 [] [] (.number 7) rfl rfl rfl rfl

/-- The variants the source's `==` compares by payload (`src/eval.rs`
lines 207-214): everything except functions. -/
def isPrimitiveValue : Value → Bool
  | .nil => true
  | .boolean _ => true
  | .number _ => true
  | .string _ => true
  | _ => false

/-- A concrete function value (zero parameters, empty body). -/
def funcVal : Value := .function fTok [] [] 0

/-- C9 counterexample: the claim says `l == r` is true whenever the two
values carry the same variant tag and equal payload. For the function
value `funcVal` compared with itself — identical tag and payload — the
code's catch-all arm answers `false` (and `!=` answers `true`). -/
theorem function_self_equality_is_false :
    applyBinary .equalEqual 1 funcVal funcVal = some (.ok (.boolean false)) ∧
    applyBinary .bangEqual 1 funcVal funcVal = some (.ok (.boolean true)) :=
  ⟨rfl, rfl⟩

/-- C9 (amended): `==` always yields a boolean, true exactly when the
operands are equal values of a primitive variant (nil, boolean, number,
string) — so every cross-type comparison is false, `nil == nil` is
true, and any comparison involving a function value is false even at
identical payloads; `!=` always yields the negation of `==`. -/
theorem equality_deep_only_on_primitives (line : Nat) (l r : Value) :
    ∃ b : Bool,
      applyBinary .equalEqual line l r = some (.ok (.boolean b)) ∧
      applyBinary .bangEqual line l r = some (.ok (.boolean (!b))) ∧
      (b = true ↔ (l = r ∧ isPrimitiveValue l = true)) := by
  cases l <;> cases r <;>
    first
      | exact ⟨true, rfl, rfl, by simp [isPrimitiveValue]⟩
      | exact ⟨false, rfl, rfl, by simp [isPrimitiveValue]⟩
      | refine ⟨_, rfl, rfl, ?_⟩
        simp [isPrimitiveValue, Value.boolean.injEq, Value.number.injEq,
          Value.string.injEq, decide_eq_true_eq]

/-- The program `var x = 0; print (x = 2) + (x = 3); print x;`: under
right-then-left evaluation the final `x` is `2` (the left assignment
runs last); under left-then-right it would be `3`. -/
def orderProg : List Stmt :=
  [.varDecl xTok (some (.literal (.num 0))),
   .print (.binary (.assign xTok (.literal (.num 2))) plusTok
     (.assign xTok (.literal (.num 3)))),
   .print (.var xTok)]

/-- C10: `visit_binary` walks the right operand before the left. So
(i) when the right operand errors, the binary expression reports
exactly that error and state, whatever the left operand (even one that
would also error); (ii) when the right operand succeeds, the left is
evaluated in the state the right produced, and a left error surfaces
from there; and (iii) concretely, `(x = 2) + (x = 3)` sums to `5` and
leaves `x = 2` — the left assignment ran last. -/
theorem binary_right_operand_first (fuel : Nat) (l : Expr) (op : Token)
    (r : Expr) (s : State) :
    (∀ m s1, evalExpr fuel r s = .err m s1 →
      evalExpr (fuel + 1) (.binary l op r) s = .err m s1) ∧
    (∀ rv s1 m s2, evalExpr fuel r s = .ok rv s1 →
      evalExpr fuel l s1 = .err m s2 →
      evalExpr (fuel + 1) (.binary l op r) s = .err m s2) ∧
    (execProgram 40 orderProg).okOutput = some ["5", "2"] := by
  refine ⟨?_, ?_, rfl⟩
  · intro m s1 h
    rw [evalExpr, h]
  · intro rv s1 m s2 h1 h2
    rw [evalExpr, h1]
    dsimp only
    rw [h2]
